import Mathlib

/-!
Verification development for the mmp-mcp hierarchical memory store.

The repository contains two variants of the `MemoryService` class plus the
storage utility module they build on:

* `src/utils/storage.ts` (embedded here as namespace `Storage`): key/value
  primitives over node-persist, keys `memory:{id}` and `node:{id}:{path}`.
  Only the local branches (`isUsingRPC() = false`) are modelled; the RPC
  branches perform network calls.  Since generated collection ids (`mm-` plus
  a UUID) never contain a colon, the flat string keys are modelled as the
  pairs `(memoryId, path)` they encode.
* the local `MemoryService` (namespace `MemoryService`): resolves the
  collection id as `params.memoryId || this.defaultMemoryId` and implements
  the tree operations directly over the storage primitives.
* the RPC-forwarding `MemoryService` of `src/services/memoryService.ts`
  (namespace `RemoteMemoryService`): resolves the collection id as
  `this.defaultMemoryId || params.memoryId` and forwards each operation as a
  single JSON-RPC request.  Its operations are modelled as the request
  payloads they send (`{...params, memoryId}`); the transport itself is not
  part of the embedding.

Timestamps (`new Date().toISOString()`) are threaded as explicit `now`
parameters; the mutable `defaultMemoryId` field as an explicit argument.
Fallible methods return `Except MError`, so an error result leaves the
caller's storage value untouched by construction.
-/

set_option autoImplicit false

namespace MmpMcp

/-- First-match association lookup: the model of `storage.getItem key`. -/
def assocGet {κ ν : Type} [DecidableEq κ] : List (κ × ν) → κ → Option ν
  | [], _ => none
  | e :: rest, k => if e.1 = k then some e.2 else assocGet rest k

/-- Overwrite-or-append: the model of `storage.setItem key value`
(one file per key, so a present key is overwritten in place). -/
def assocSet {κ ν : Type} [DecidableEq κ] : List (κ × ν) → κ → ν → List (κ × ν)
  | [], k, v => [(k, v)]
  | e :: rest, k, v => if e.1 = k then (k, v) :: rest else e :: assocSet rest k v

/-- Key removal: the model of `storage.removeItem key` (which resolves
without error whether or not the key exists). -/
def assocErase {κ ν : Type} [DecidableEq κ] : List (κ × ν) → κ → List (κ × ν)
  | [], _ => []
  | e :: rest, k => if e.1 = k then assocErase rest k else e :: assocErase rest k

/-- JS `s.startsWith(p)`, modelled on the character sequences. -/
def jsStartsWith (s p : String) : Bool :=
  List.isPrefixOf p.data s.data

/-- JS `a || b` on strings: the empty string is falsy. -/
def jsOrStr (a b : String) : String :=
  if a = "" then b else a

/-- JS `x || d` on an optional number: `undefined` and `0` are falsy. -/
def jsOrNat (x : Option Nat) (d : Nat) : Nat :=
  match x with
  | none => d
  | some n => if n = 0 then d else n

/-- JS object spread `{...existing, ...updates}` on one optional field:
a field present in `updates` overrides, an absent one keeps `existing`. -/
def overrideField {α : Type} (update existing : Option α) : Option α :=
  match update with
  | some v => some v
  | none => existing

/-- The `type` enum of a memory node (`src/types/index.ts`). -/
inductive ContentType where
  | json
  | markdown
  | xml
  | plaintext
deriving DecidableEq, Repr

/-- `MemoryNode` (`src/types/index.ts`).  `createdAt`/`updatedAt` are
optional because a node reaches `saveNode` before they are stamped. -/
structure MemoryNode where
  path : String
  name : String
  description : Option String
  attention : Option String
  needInit : Option Bool
  format : Option String
  type : ContentType
  content : Option String
  createdAt : Option String
  updatedAt : Option String
deriving DecidableEq, Repr

/-- `Memory` (`src/types/index.ts`); `metadata` (a JSON object) is modelled
as an optional list of string entries, which no operation inspects. -/
structure Memory where
  id : String
  name : String
  description : String
  createdAt : String
  updatedAt : Option String
  metadata : Option (List (String × String))
deriving DecidableEq, Repr

/-- `MemoryTemplateNode`: a `MemoryNode` without timestamps and with a
mandatory `needInit`. -/
structure MemoryTemplateNode where
  path : String
  name : String
  description : Option String
  attention : Option String
  needInit : Bool
  format : Option String
  type : ContentType
  content : Option String
deriving DecidableEq, Repr

/-- The `MemoryNode` value a template entry is saved as (no timestamps yet). -/
def MemoryTemplateNode.toNode (t : MemoryTemplateNode) : MemoryNode :=
  { path := t.path, name := t.name, description := t.description,
    attention := t.attention, needInit := some t.needInit, format := t.format,
    type := t.type, content := t.content, createdAt := none, updatedAt := none }

/-- `AddNodeRequest.node`: `Omit<MemoryNode, 'createdAt' | 'updatedAt'>`. -/
structure NodeInput where
  path : String
  name : String
  description : Option String
  attention : Option String
  needInit : Option Bool
  format : Option String
  type : ContentType
  content : Option String
deriving DecidableEq, Repr

/-- The `MemoryNode` value an added node is saved as (no timestamps yet). -/
def NodeInput.toNode (n : NodeInput) : MemoryNode :=
  { path := n.path, name := n.name, description := n.description,
    attention := n.attention, needInit := n.needInit, format := n.format,
    type := n.type, content := n.content, createdAt := none, updatedAt := none }

/-- The persisted key/value state: `memory:{id}` entries and
`node:{id}:{path}` entries, in key-enumeration order. -/
structure Storage where
  memories : List (String × Memory)
  nodes : List ((String × String) × MemoryNode)
deriving DecidableEq, Repr

/-- Error taxonomy of the thrown `Error`s, classified per the spec
(NotFound / Conflict / Validation / Configuration); the payload is the
thrown message. -/
inductive MError where
  | notFound (msg : String)
  | conflict (msg : String)
  | validation (msg : String)
  | configuration (msg : String)
deriving DecidableEq, Repr

namespace Storage

/-- `getMemory` (local branch): read key `memory:{id}`. -/
def getMemory (s : Storage) (memoryId : String) : Option Memory :=
  assocGet s.memories memoryId

/-- `saveMemory` (local branch): write key `memory:{id}`. -/
def saveMemory (s : Storage) (memory : Memory) : Storage :=
  { s with memories := assocSet s.memories memory.id memory }

/-- `getNode` (local branch): read key `node:{id}:{path}`. -/
def getNode (s : Storage) (memoryId nodePath : String) : Option MemoryNode :=
  assocGet s.nodes (memoryId, nodePath)

/-- `saveNode` (local branch): stamp `createdAt` when falsy (absent or
empty), refresh `updatedAt`, write the node, then bump the owning
collection's `updatedAt`.  Returns the new state and the stored node. -/
def saveNode (now : String) (s : Storage) (memoryId : String) (node : MemoryNode) :
    Storage × MemoryNode :=
  let createdAt : Option String :=
    match node.createdAt with
    | none => some now
    | some t => if t = "" then some now else some t
  let node' : MemoryNode := { node with createdAt := createdAt, updatedAt := some now }
  let nodes' := assocSet s.nodes (memoryId, node.path) node'
  let memories' :=
    match assocGet s.memories memoryId with
    | some m => assocSet s.memories memoryId { m with updatedAt := some now }
    | none => s.memories
  ({ memories := memories', nodes := nodes' }, node')

/-- `deleteNode` (local branch): `storage.removeItem` then `return true`.
node-persist's `removeItem` resolves without error for a missing key, so the
`catch` branch that returns `false` is unreachable absent I/O failure. -/
def deleteNode (s : Storage) (memoryId nodePath : String) : Storage × Bool :=
  ({ s with nodes := assocErase s.nodes (memoryId, nodePath) }, true)

/-- `getAllNodes` (local branch): every node stored under a
`node:{memoryId}:` key, in key-enumeration order. -/
def getAllNodes (s : Storage) (memoryId : String) : List MemoryNode :=
  (s.nodes.filter (fun e => e.1.1 = memoryId)).map (fun e => e.2)

/-- The filter predicate of `getFilteredNodes`: each guard is skipped when
its argument is JS-falsy (`undefined`, empty string; `needInit` is compared
against `undefined` explicitly, so `false` does filter). -/
def nodeMatches (pathPre : Option String) (ty : Option ContentType)
    (ni : Option Bool) (node : MemoryNode) : Bool :=
  (match pathPre with
   | none => true
   | some p => if p = "" then true else jsStartsWith node.path p) &&
  (match ty with
   | none => true
   | some t => decide (node.type = t)) &&
  (match ni with
   | none => true
   | some b => decide (node.needInit = some b))

/-- `getFilteredNodes` (local branch). -/
def getFilteredNodes (s : Storage) (memoryId : String) (pathPre : Option String)
    (ty : Option ContentType) (ni : Option Bool) : List MemoryNode :=
  (getAllNodes s memoryId).filter (nodeMatches pathPre ty ni)

/-- `getChildNodePaths`: paths of nodes whose path starts with
`parentPath + "/"` (strict-descendant test). -/
def getChildNodePaths (s : Storage) (memoryId parentPath : String) : List String :=
  ((getAllNodes s memoryId).filter
    (fun node => jsStartsWith node.path (parentPath ++ "/"))).map (fun node => node.path)

/-- `nodePathExists`. -/
def nodePathExists (s : Storage) (memoryId nodePath : String) : Bool :=
  (getNode s memoryId nodePath).isSome

end Storage

/-- Node filter of `ListNodesRequest` (`filter?: {path?, type?, needInit?}`). -/
structure NodeFilter where
  path : Option String
  type : Option ContentType
  needInit : Option Bool
deriving DecidableEq, Repr

/-- Pagination of `ListNodesRequest` (`pagination?: {offset?, limit?}`). -/
structure Pagination where
  offset : Option Nat
  limit : Option Nat
deriving DecidableEq, Repr

/-- Filter of `GetInitNodesRequest` (`filter?: {path?}`). -/
structure InitFilter where
  path : Option String
deriving DecidableEq, Repr

/-- `GetInitNodesRequest`. -/
structure GetInitNodesRequest where
  memoryId : Option String
  filter : Option InitFilter
deriving DecidableEq, Repr

/-- One item of `GetInitNodesResponse.nodes`. -/
structure InitNodeItem where
  path : String
  name : String
  description : String
  attention : String
deriving DecidableEq, Repr

/-- `GetInitNodesResponse`. -/
structure GetInitNodesResponse where
  nodes : List InitNodeItem
deriving DecidableEq, Repr

/-- `AddNodeRequest`. -/
structure AddNodeRequest where
  memoryId : Option String
  node : NodeInput
deriving DecidableEq, Repr

/-- `AddNodeResponse`. -/
structure AddNodeResponse where
  path : String
deriving DecidableEq, Repr

/-- `GetNodeRequest` (`outputFormat` is accepted but unused by the service). -/
structure GetNodeRequest where
  memoryId : Option String
  path : String
  outputFormat : Option String
deriving DecidableEq, Repr

/-- `ListNodesRequest`. -/
structure ListNodesRequest where
  memoryId : Option String
  filter : Option NodeFilter
  pagination : Option Pagination
deriving DecidableEq, Repr

/-- One item of `ListNodesResponse.nodes`. -/
structure ListNodeItem where
  path : String
  name : String
  description : String
deriving DecidableEq, Repr

/-- `ListNodesResponse`. -/
structure ListNodesResponse where
  total : Nat
  nodes : List ListNodeItem
deriving DecidableEq, Repr

/-- `UpdateNodeRequest.updates`:
`Partial<Omit<MemoryNode, 'path' | 'createdAt' | 'updatedAt'>>` as used by
the service (the tool schema exposes name, description, content, attention,
format and needInit). -/
structure NodeUpdates where
  name : Option String
  description : Option String
  content : Option String
  attention : Option String
  format : Option String
  needInit : Option Bool
deriving DecidableEq, Repr

/-- `UpdateNodeRequest`. -/
structure UpdateNodeRequest where
  memoryId : Option String
  path : String
  updates : NodeUpdates
deriving DecidableEq, Repr

/-- `UpdateNodeResponse`. -/
structure UpdateNodeResponse where
  path : String
  updatedAt : String
deriving DecidableEq, Repr

/-- `DeleteNodeRequest`. -/
structure DeleteNodeRequest where
  memoryId : Option String
  path : String
  recursive : Option Bool
deriving DecidableEq, Repr

/-- `DeleteNodeResponse`. -/
structure DeleteNodeResponse where
  success : Bool
  deletedCount : Nat
deriving DecidableEq, Repr

/-- `ApplyTemplateRequest`. -/
structure ApplyTemplateRequest where
  memoryId : Option String
  template : List MemoryTemplateNode
deriving DecidableEq, Repr

/-- One item of `ApplyTemplateResponse.createdNodes`. -/
structure CreatedNode where
  path : String
  needInit : Bool
deriving DecidableEq, Repr

/-- `ApplyTemplateResponse`. -/
structure ApplyTemplateResponse where
  memoryId : String
  success : Bool
  createdNodes : List CreatedNode
deriving DecidableEq, Repr

/-- One item of `BatchGetRequest.requests`. -/
structure BatchItemRequest where
  memoryId : Option String
  path : String
deriving DecidableEq, Repr

/-- `BatchGetRequest`. -/
structure BatchGetRequest where
  requests : List BatchItemRequest
deriving DecidableEq, Repr

namespace MemoryService

/-- The id resolution every local `MemoryService` method inlines:
`const memoryId = params.memoryId || this.defaultMemoryId;` followed by
`if (!memoryId) throw ...` — the caller-supplied id wins, the configured
default is only the fallback. -/
def resolveMemoryId (defaultId : String) (param : Option String) :
    Except MError String :=
  let memoryId :=
    match param with
    | some p => if p = "" then defaultId else p
    | none => defaultId
  if memoryId = "" then
    .error (.configuration "No memoryId provided and no default memoryId set")
  else
    .ok memoryId

/-- The memory-existence check every local method performs right after id
resolution: `const memory = await getMemory(memoryId); if (!memory) throw`. -/
def checkMemory (s : Storage) (memoryId : String) : Except MError Memory :=
  match Storage.getMemory s memoryId with
  | none => .error (.notFound ("Memory " ++ memoryId ++ " not found"))
  | some m => .ok m

/-- Local `MemoryService.getInitNodes`. -/
def getInitNodes (defaultId : String) (s : Storage) (params : GetInitNodesRequest) :
    Except MError GetInitNodesResponse :=
  match resolveMemoryId defaultId params.memoryId with
  | .error e => .error e
  | .ok memoryId =>
    match checkMemory s memoryId with
    | .error e => .error e
    | .ok _ =>
      let nodes := Storage.getFilteredNodes s memoryId
        (params.filter.bind (fun f => f.path)) none (some true)
      .ok { nodes := nodes.map (fun node =>
        { path := node.path, name := node.name,
          description := node.description.getD "",
          attention := node.attention.getD "" }) }

/-- Local `MemoryService.addNode`: Conflict when the path already exists,
otherwise save. -/
def addNode (now : String) (defaultId : String) (s : Storage)
    (params : AddNodeRequest) : Except MError (Storage × AddNodeResponse) :=
  match resolveMemoryId defaultId params.memoryId with
  | .error e => .error e
  | .ok memoryId =>
    match checkMemory s memoryId with
    | .error e => .error e
    | .ok _ =>
      if Storage.nodePathExists s memoryId params.node.path then
        .error (.conflict ("Node path " ++ params.node.path ++
          " already exists in memory " ++ memoryId))
      else
        let r := Storage.saveNode now s memoryId params.node.toNode
        .ok (r.1, { path := params.node.path })

/-- Local `MemoryService.getNode`. -/
def getNode (defaultId : String) (s : Storage) (params : GetNodeRequest) :
    Except MError MemoryNode :=
  match resolveMemoryId defaultId params.memoryId with
  | .error e => .error e
  | .ok memoryId =>
    match checkMemory s memoryId with
    | .error e => .error e
    | .ok _ =>
      match Storage.getNode s memoryId params.path with
      | none => .error (.notFound ("Node " ++ params.path ++
          " not found in memory " ++ memoryId))
      | some node => .ok node

/-- Local `MemoryService.listNodes`: filter, then paginate with
`offset || 0` and `limit || 50` (so a supplied `0` falls back to the
default) via `nodes.slice(offset, offset + limit)`. -/
def listNodes (defaultId : String) (s : Storage) (params : ListNodesRequest) :
    Except MError ListNodesResponse :=
  match resolveMemoryId defaultId params.memoryId with
  | .error e => .error e
  | .ok memoryId =>
    match checkMemory s memoryId with
    | .error e => .error e
    | .ok _ =>
      let nodes := Storage.getFilteredNodes s memoryId
        (params.filter.bind (fun f => f.path))
        (params.filter.bind (fun f => f.type))
        (params.filter.bind (fun f => f.needInit))
      let offset := jsOrNat (params.pagination.bind (fun p => p.offset)) 0
      let limit := jsOrNat (params.pagination.bind (fun p => p.limit)) 50
      let pagedNodes := (nodes.drop offset).take limit
      .ok { total := nodes.length,
            nodes := pagedNodes.map (fun node =>
              { path := node.path, name := node.name,
                description := node.description.getD "" }) }

/-- The merged node `{...existingNode, ...updates, path}` of `updateNode`. -/
def mergeUpdates (existing : MemoryNode) (nodePath : String)
    (updates : NodeUpdates) : MemoryNode :=
  { existing with
    path := nodePath,
    name := updates.name.getD existing.name,
    description := overrideField updates.description existing.description,
    content := overrideField updates.content existing.content,
    attention := overrideField updates.attention existing.attention,
    format := overrideField updates.format existing.format,
    needInit := overrideField updates.needInit existing.needInit }

/-- Local `MemoryService.updateNode`: merge the updates over the existing
node and re-save it (the response's `updatedAt` is the saved node's
`updatedAt!`, modelled with a `getD ""` in place of the non-null assertion). -/
def updateNode (now : String) (defaultId : String) (s : Storage)
    (params : UpdateNodeRequest) : Except MError (Storage × UpdateNodeResponse) :=
  match resolveMemoryId defaultId params.memoryId with
  | .error e => .error e
  | .ok memoryId =>
    match checkMemory s memoryId with
    | .error e => .error e
    | .ok _ =>
      match Storage.getNode s memoryId params.path with
      | none => .error (.notFound ("Node " ++ params.path ++
          " not found in memory " ++ memoryId))
      | some existingNode =>
        let updatedNode := mergeUpdates existingNode params.path params.updates
        let r := Storage.saveNode now s memoryId updatedNode
        .ok (r.1, { path := r.2.path, updatedAt := r.2.updatedAt.getD "" })

/-- The deletion loop of `deleteNode`: delete each target path in order,
counting the removals the primitive reports as successful. -/
def deleteLoop (memoryId : String) : Storage → List String → Storage × Nat
  | s, [] => (s, 0)
  | s, p :: rest =>
    let r := Storage.deleteNode s memoryId p
    let rec' := deleteLoop memoryId r.1 rest
    (rec'.1, (if r.2 then 1 else 0) + rec'.2)

/-- Local `MemoryService.deleteNode`: NotFound when the node is absent;
with `recursive` falsy, Conflict when child paths exist; otherwise delete
the path (and, recursively, every child path), returning
`success = deletedCount > 0`. -/
def deleteNode (defaultId : String) (s : Storage) (params : DeleteNodeRequest) :
    Except MError (Storage × DeleteNodeResponse) :=
  match resolveMemoryId defaultId params.memoryId with
  | .error e => .error e
  | .ok memoryId =>
    match checkMemory s memoryId with
    | .error e => .error e
    | .ok _ =>
      match Storage.getNode s memoryId params.path with
      | none => .error (.notFound ("Node " ++ params.path ++
          " not found in memory " ++ memoryId))
      | some _ =>
        if params.recursive.getD false then
          let childPaths := Storage.getChildNodePaths s memoryId params.path
          let r := deleteLoop memoryId s (params.path :: childPaths)
          .ok (r.1, { success := decide (r.2 > 0), deletedCount := r.2 })
        else
          let childPaths := Storage.getChildNodePaths s memoryId params.path
          if childPaths.length > 0 then
            .error (.conflict ("Cannot delete node " ++ params.path ++
              " with children without recursive flag"))
          else
            let r := deleteLoop memoryId s [params.path]
            .ok (r.1, { success := decide (r.2 > 0), deletedCount := r.2 })

/-- A template entry violating the needInit constraint:
`node.needInit && (!node.content || node.content.trim() === '')`. -/
def badTemplateNode (t : MemoryTemplateNode) : Bool :=
  t.needInit &&
  (match t.content with
   | none => true
   | some c => decide (c = "") || decide (c.trim = ""))

/-- The creation loop of `applyTemplate`: skip entries whose path already
exists, save the rest, recording `{path, needInit}` in order. -/
def applyLoop (now : String) (memoryId : String) :
    Storage → List MemoryTemplateNode → Storage × List CreatedNode
  | s, [] => (s, [])
  | s, t :: rest =>
    if Storage.nodePathExists s memoryId t.path then
      applyLoop now memoryId s rest
    else
      let s' := (Storage.saveNode now s memoryId t.toNode).1
      let r := applyLoop now memoryId s' rest
      (r.1, { path := t.path, needInit := t.needInit } :: r.2)

/-- Local `MemoryService.applyTemplate`: validate every entry before
creating anything, then run the creation loop and return
`success: true` with the created `{path, needInit}` list. -/
def applyTemplate (now : String) (defaultId : String) (s : Storage)
    (params : ApplyTemplateRequest) :
    Except MError (Storage × ApplyTemplateResponse) :=
  match resolveMemoryId defaultId params.memoryId with
  | .error e => .error e
  | .ok memoryId =>
    match checkMemory s memoryId with
    | .error e => .error e
    | .ok _ =>
      match params.template.find? badTemplateNode with
      | some t => .error (.validation ("Invalid template: node " ++ t.path ++
          " is marked as needInit but has no content"))
      | none =>
        let r := applyLoop now memoryId s params.template
        .ok (r.1, { memoryId := memoryId, success := true, createdNodes := r.2 })

/-- The per-item lookup of the local `batchGetNodes` loop: resolve the id
(caller-supplied first), then `this.getNode`; any failure yields nothing. -/
def batchItem (defaultId : String) (s : Storage) (req : BatchItemRequest) :
    Option MemoryNode :=
  match resolveMemoryId defaultId req.memoryId with
  | .error _ => none
  | .ok memoryId =>
    (getNode defaultId s
      { memoryId := some memoryId, path := req.path, outputFormat := none }).toOption

/-- The sequential `for (const request of requests)` loop of the local
`batchGetNodes`. -/
def batchLoop (defaultId : String) (s : Storage) :
    List BatchItemRequest → List MemoryNode
  | [] => []
  | req :: rest =>
    match batchItem defaultId s req with
    | none => batchLoop defaultId s rest
    | some node => node :: batchLoop defaultId s rest

/-- Local `MemoryService.batchGetNodes`: iterate the requests in order,
skipping an item whose id cannot be resolved and catching any error from
the per-item `getNode`; failures are dropped from the result list. -/
def batchGetNodes (defaultId : String) (s : Storage) (params : BatchGetRequest) :
    List MemoryNode :=
  batchLoop defaultId s params.requests

end MemoryService

/-- `GetInitNodesRequest` of the RPC service (`memoryId` is a plain string). -/
structure GetInitNodesRequestR where
  memoryId : String
  filter : Option InitFilter
deriving DecidableEq, Repr

/-- `AddNodeRequest` of the RPC service. -/
structure AddNodeRequestR where
  memoryId : String
  node : NodeInput
deriving DecidableEq, Repr

/-- `GetNodeRequest` of the RPC service. -/
structure GetNodeRequestR where
  memoryId : String
  path : String
  outputFormat : Option String
deriving DecidableEq, Repr

/-- `ListNodesRequest` of the RPC service. -/
structure ListNodesRequestR where
  memoryId : String
  filter : Option NodeFilter
  pagination : Option Pagination
deriving DecidableEq, Repr

/-- `UpdateNodeRequest` of the RPC service. -/
structure UpdateNodeRequestR where
  memoryId : String
  path : String
  updates : NodeUpdates
deriving DecidableEq, Repr

/-- `DeleteNodeRequest` of the RPC service. -/
structure DeleteNodeRequestR where
  memoryId : String
  path : String
  recursive : Option Bool
deriving DecidableEq, Repr

/-- `ApplyTemplateRequest` of the RPC service. -/
structure ApplyTemplateRequestR where
  memoryId : String
  template : List MemoryTemplateNode
deriving DecidableEq, Repr

/-- One item of the RPC service's `BatchGetRequest.requests`. -/
structure BatchItemRequestR where
  memoryId : String
  path : String
deriving DecidableEq, Repr

namespace RemoteMemoryService

/-- The configuration error every RPC-service method throws when no id
resolves. -/
def noIdError : MError :=
  .configuration "No memoryId provided and no default memoryId set"

/-- RPC `MemoryService.getInitNodes`: resolves
`this.defaultMemoryId || params.memoryId` (the configured default wins) and
returns the `{...params, memoryId}` payload sent as `memory.GetInitNodes`. -/
def getInitNodes (defaultId : String) (params : GetInitNodesRequestR) :
    Except MError GetInitNodesRequestR :=
  let memoryId := jsOrStr defaultId params.memoryId
  if memoryId = "" then .error noIdError
  else .ok { params with memoryId := memoryId }

/-- RPC `MemoryService.addNode`: payload sent as `memory.Add`. -/
def addNode (defaultId : String) (params : AddNodeRequestR) :
    Except MError AddNodeRequestR :=
  let memoryId := jsOrStr defaultId params.memoryId
  if memoryId = "" then .error noIdError
  else .ok { params with memoryId := memoryId }

/-- RPC `MemoryService.getNode`: payload sent as `memory.Get`. -/
def getNode (defaultId : String) (params : GetNodeRequestR) :
    Except MError GetNodeRequestR :=
  let memoryId := jsOrStr defaultId params.memoryId
  if memoryId = "" then .error noIdError
  else .ok { params with memoryId := memoryId }

/-- RPC `MemoryService.listNodes`: payload sent as `memory.List`. -/
def listNodes (defaultId : String) (params : ListNodesRequestR) :
    Except MError ListNodesRequestR :=
  let memoryId := jsOrStr defaultId params.memoryId
  if memoryId = "" then .error noIdError
  else .ok { params with memoryId := memoryId }

/-- RPC `MemoryService.updateNode`: payload sent as `memory.Update`. -/
def updateNode (defaultId : String) (params : UpdateNodeRequestR) :
    Except MError UpdateNodeRequestR :=
  let memoryId := jsOrStr defaultId params.memoryId
  if memoryId = "" then .error noIdError
  else .ok { params with memoryId := memoryId }

/-- RPC `MemoryService.deleteNode`: payload sent as `memory.Delete`. -/
def deleteNode (defaultId : String) (params : DeleteNodeRequestR) :
    Except MError DeleteNodeRequestR :=
  let memoryId := jsOrStr defaultId params.memoryId
  if memoryId = "" then .error noIdError
  else .ok { params with memoryId := memoryId }

/-- RPC `MemoryService.applyTemplate`: payload sent as
`memManager.ApplyTemplate`. -/
def applyTemplate (defaultId : String) (params : ApplyTemplateRequestR) :
    Except MError ApplyTemplateRequestR :=
  let memoryId := jsOrStr defaultId params.memoryId
  if memoryId = "" then .error noIdError
  else .ok { params with memoryId := memoryId }

/-- RPC `MemoryService.batchGetNodes`: rewrite every request's id as
`this.defaultMemoryId || req.memoryId`, then throw for the whole call if
any rewritten request still has no id; otherwise the whole list is sent as
one `memory.Batch` request. -/
def batchGetNodes (defaultId : String) (requests : List BatchItemRequestR) :
    Except MError (List BatchItemRequestR) :=
  let rewritten := requests.map (fun req =>
    { req with memoryId := jsOrStr defaultId req.memoryId })
  if rewritten.any (fun req => req.memoryId = "") then
    .error (.configuration
      "One or more requests have no memoryId and no default memoryId is set")
  else
    .ok rewritten

end RemoteMemoryService

/-! Concrete states and requests used to instantiate the theorems below. -/

/-- A minimal collection descriptor. -/
def memFix (id : String) : Memory :=
  { id := id, name := "m", description := "", createdAt := "t0",
    updatedAt := none, metadata := none }

/-- A minimal stored node (already stamped, as `saveNode` leaves it). -/
def nodeFix (p : String) : MemoryNode :=
  { path := p, name := "n", description := none, attention := none,
    needInit := none, format := none, type := ContentType.plaintext,
    content := some "c", createdAt := some "t0", updatedAt := some "t0" }

/-- The empty store. -/
def emptyStorage : Storage := { memories := [], nodes := [] }

/-- One collection `m`, no nodes. -/
def sOne : Storage := { memories := [("m", memFix ("m"))], nodes := [] }

/-- One collection `m` holding a node at `p`. -/
def sNode : Storage :=
  { memories := [("m", memFix ("m"))], nodes := [(("m", "p"), nodeFix ("p"))] }

/-- One collection `m` holding nodes at `a` and `a/b`. -/
def sTree : Storage :=
  { memories := [("m", memFix ("m"))],
    nodes := [(("m", "a"), nodeFix ("a")), (("m", "a/b"), nodeFix ("a/b"))] }

/-- Collections `D` and `E`; the node at `p` exists only in `E`. -/
def sC1 : Storage :=
  { memories := [("D", memFix ("D")), ("E", memFix ("E"))],
    nodes := [(("E", "p"), nodeFix ("p"))] }

/-- A node input (no timestamps), as `addNode` receives it. -/
def nodeInputFix : NodeInput :=
  { path := "p", name := "n", description := none, attention := none,
    needInit := none, format := none, type := ContentType.plaintext,
    content := some "c" }

/-- An empty update set. -/
def noUpdates : NodeUpdates :=
  { name := none, description := none, content := none, attention := none,
    format := none, needInit := none }

/-- RPC request instances, all carrying the caller-supplied id `E`. -/
def rInit : GetInitNodesRequestR := { memoryId := "E", filter := none }

/-- RPC add request with caller id `E`. -/
def rAdd : AddNodeRequestR := { memoryId := "E", node := nodeInputFix }

/-- RPC get request with caller id `E`. -/
def rGet : GetNodeRequestR := { memoryId := "E", path := "p", outputFormat := none }

/-- RPC list request with caller id `E`. -/
def rList : ListNodesRequestR := { memoryId := "E", filter := none, pagination := none }

/-- RPC update request with caller id `E`. -/
def rUpd : UpdateNodeRequestR := { memoryId := "E", path := "p", updates := noUpdates }

/-- RPC delete request with caller id `E`. -/
def rDel : DeleteNodeRequestR := { memoryId := "E", path := "p", recursive := none }

/-- RPC template request with caller id `E`. -/
def rTpl : ApplyTemplateRequestR := { memoryId := "E", template := [] }

/-- Template entry at `x` marked `needInit` with empty content (invalid). -/
def tplXbad : MemoryTemplateNode :=
  { path := "x", name := "n", description := none, attention := none,
    needInit := true, format := none, type := ContentType.markdown,
    content := some "" }

/-- Template entry at `y` not marked `needInit` and without content. -/
def tplY : MemoryTemplateNode :=
  { path := "y", name := "n", description := none, attention := none,
    needInit := false, format := none, type := ContentType.plaintext,
    content := none }

/-- Template entry at `z`, not marked `needInit`, with content. -/
def tplZ : MemoryTemplateNode :=
  { path := "z", name := "n", description := none, attention := none,
    needInit := false, format := none, type := ContentType.markdown,
    content := some "zzz" }

/-- List request supplying an explicit `limit` of `0`. -/
def pC5 : ListNodesRequest :=
  { memoryId := some ("m"), filter := none,
    pagination := some { offset := none, limit := some 0 } }

/-- Batch request mixing a resolvable hit, a missing node and an
unresolvable id. -/
def pC6 : BatchGetRequest :=
  { requests := [ { memoryId := some ("m"), path := "p" },
                  { memoryId := some ("m"), path := "missing" },
                  { memoryId := none, path := "p" } ] }

/-! Association-list lemmas. -/

theorem assocGet_assocSet_self {κ ν : Type} [DecidableEq κ]
    (l : List (κ × ν)) (k : κ) (v : ν) :
    assocGet (assocSet l k v) k = some v := by
  induction l with
  | nil => simp [assocSet, assocGet]
  | cons e rest ih =>
    by_cases h : e.1 = k
    · simp [assocSet, h, assocGet]
    · simp [assocSet, h, assocGet, ih]

theorem assocGet_assocSet_ne {κ ν : Type} [DecidableEq κ]
    (l : List (κ × ν)) (k k' : κ) (v : ν) (hk : k' ≠ k) :
    assocGet (assocSet l k v) k' = assocGet l k' := by
  induction l with
  | nil => simp [assocSet, assocGet, Ne.symm hk]
  | cons e rest ih =>
    by_cases h : e.1 = k
    · simp [assocSet, h, assocGet, Ne.symm hk]
    · simp only [assocSet, if_neg h, assocGet]
      by_cases h' : e.1 = k'
      · simp [h']
      · simp [h', ih]

theorem assocGet_assocErase_self {κ ν : Type} [DecidableEq κ]
    (l : List (κ × ν)) (k : κ) :
    assocGet (assocErase l k) k = none := by
  induction l with
  | nil => simp [assocErase, assocGet]
  | cons e rest ih =>
    by_cases h : e.1 = k
    · simp [assocErase, h, ih]
    · simp [assocErase, h, assocGet, ih]

theorem assocGet_assocErase_ne {κ ν : Type} [DecidableEq κ]
    (l : List (κ × ν)) (k k' : κ) (hk : k' ≠ k) :
    assocGet (assocErase l k) k' = assocGet l k' := by
  induction l with
  | nil => simp [assocErase]
  | cons e rest ih =>
    by_cases h : e.1 = k
    · simp [assocErase, h, assocGet, ih, Ne.symm hk]
    · simp only [assocErase, if_neg h, assocGet]
      by_cases h' : e.1 = k'
      · simp [h']
      · simp [h', ih]

theorem assocErase_assocErase_self {κ ν : Type} [DecidableEq κ]
    (l : List (κ × ν)) (k : κ) :
    assocErase (assocErase l k) k = assocErase l k := by
  induction l with
  | nil => simp [assocErase]
  | cons e rest ih =>
    by_cases h : e.1 = k
    · simp [assocErase, h, ih]
    · simp [assocErase, h, ih]

/-! Storage-level lemmas. -/

theorem getNode_deleteNode_self (s : Storage) (memoryId p : String) :
    Storage.getNode (Storage.deleteNode s memoryId p).1 memoryId p = none := by
  simp [Storage.deleteNode, Storage.getNode, assocGet_assocErase_self]

theorem getNode_deleteNode_ne (s : Storage) (memoryId p id' q : String)
    (h : (id', q) ≠ (memoryId, p)) :
    Storage.getNode (Storage.deleteNode s memoryId p).1 id' q =
      Storage.getNode s id' q := by
  simp [Storage.deleteNode, Storage.getNode, assocGet_assocErase_ne _ _ _ h]

theorem getNode_saveNode_self (now : String) (s : Storage) (memoryId : String)
    (node : MemoryNode) :
    Storage.getNode (Storage.saveNode now s memoryId node).1 memoryId node.path =
      some (Storage.saveNode now s memoryId node).2 := by
  simp [Storage.saveNode, Storage.getNode, assocGet_assocSet_self]

theorem getNode_saveNode_ne (now : String) (s : Storage) (memoryId : String)
    (node : MemoryNode) (id' q : String) (h : (id', q) ≠ (memoryId, node.path)) :
    Storage.getNode (Storage.saveNode now s memoryId node).1 id' q =
      Storage.getNode s id' q := by
  simp [Storage.saveNode, Storage.getNode, assocGet_assocSet_ne _ _ _ _ h]

theorem getMemory_saveNode_isSome (now : String) (s : Storage)
    (memoryId : String) (node : MemoryNode) (id' : String)
    (h : (Storage.getMemory s id').isSome = true) :
    (Storage.getMemory (Storage.saveNode now s memoryId node).1 id').isSome = true := by
  simp only [Storage.saveNode, Storage.getMemory] at h ⊢
  cases hm : assocGet s.memories memoryId with
  | none => simpa [hm] using h
  | some mm =>
    by_cases hid : id' = memoryId
    · subst hid; simp [hm, assocGet_assocSet_self]
    · simpa [hm, assocGet_assocSet_ne _ _ _ _ hid] using h

theorem nodePathExists_saveNode_self (now : String) (s : Storage)
    (memoryId : String) (node : MemoryNode) :
    Storage.nodePathExists (Storage.saveNode now s memoryId node).1
      memoryId node.path = true := by
  simp [Storage.nodePathExists, getNode_saveNode_self]

theorem nodePathExists_saveNode_mono (now : String) (s : Storage)
    (memoryId : String) (node : MemoryNode) (id' q : String)
    (h : Storage.nodePathExists s id' q = true) :
    Storage.nodePathExists (Storage.saveNode now s memoryId node).1 id' q = true := by
  by_cases hk : (id', q) = (memoryId, node.path)
  · cases hk
    simp [Storage.nodePathExists, getNode_saveNode_self]
  · simpa [Storage.nodePathExists, getNode_saveNode_ne now s memoryId node id' q hk]
      using h

theorem nodePathExists_saveNode_ne (now : String) (s : Storage)
    (memoryId : String) (node : MemoryNode) (id' q : String)
    (h : (id', q) ≠ (memoryId, node.path)) :
    Storage.nodePathExists (Storage.saveNode now s memoryId node).1 id' q =
      Storage.nodePathExists s id' q := by
  simp [Storage.nodePathExists, getNode_saveNode_ne now s memoryId node id' q h]

/-- A JS `startsWith` check against the empty string always passes. -/
theorem jsStartsWith_empty (s : String) : jsStartsWith s "" = true := by
  unfold jsStartsWith
  show List.isPrefixOf [] s.data = true
  cases s.data <;> rfl

/-! Lemmas about the deletion loop of the local `deleteNode`. -/

theorem deleteLoop_count (memoryId : String) (ps : List String) (s : Storage) :
    (MemoryService.deleteLoop memoryId s ps).2 = ps.length := by
  induction ps generalizing s with
  | nil => rfl
  | cons p rest ih =>
    simp [MemoryService.deleteLoop, Storage.deleteNode, ih, Nat.add_comm]

theorem deleteLoop_getNode_none (memoryId : String) (ps : List String)
    (s : Storage) (q : String)
    (h : q ∈ ps ∨ Storage.getNode s memoryId q = none) :
    Storage.getNode (MemoryService.deleteLoop memoryId s ps).1 memoryId q = none := by
  induction ps generalizing s with
  | nil =>
    cases h with
    | inl hq => cases hq
    | inr hq => exact hq
  | cons p rest ih =>
    show Storage.getNode
      (MemoryService.deleteLoop memoryId (Storage.deleteNode s memoryId p).1 rest).1
      memoryId q = none
    apply ih
    by_cases hqp : q = p
    · subst hqp
      exact Or.inr (getNode_deleteNode_self s memoryId q)
    · cases h with
      | inl hq =>
        cases List.mem_cons.mp hq with
        | inl h1 => exact absurd h1 hqp
        | inr h2 => exact Or.inl h2
      | inr hq =>
        refine Or.inr ?_
        rw [getNode_deleteNode_ne s memoryId p memoryId q ?_]
        · exact hq
        · intro hk
          exact hqp (congrArg Prod.snd hk)

/-! Lemmas about the creation loop of the local `applyTemplate`. -/

theorem applyLoop_exists_mono (now memoryId : String)
    (tmpl : List MemoryTemplateNode) (s : Storage) (p : String)
    (h : Storage.nodePathExists s memoryId p = true) :
    Storage.nodePathExists (MemoryService.applyLoop now memoryId s tmpl).1
      memoryId p = true := by
  induction tmpl generalizing s with
  | nil => exact h
  | cons t rest ih =>
    by_cases he : Storage.nodePathExists s memoryId t.path
    · simpa [MemoryService.applyLoop, he] using ih s h
    · simp only [MemoryService.applyLoop, he, if_neg, Bool.false_eq_true,
        ite_false]
      exact ih _ (nodePathExists_saveNode_mono now s memoryId t.toNode memoryId p h)

theorem applyLoop_getNode_preserved (now memoryId : String)
    (tmpl : List MemoryTemplateNode) (s : Storage) (p : String)
    (h : Storage.nodePathExists s memoryId p = true) :
    Storage.getNode (MemoryService.applyLoop now memoryId s tmpl).1 memoryId p =
      Storage.getNode s memoryId p := by
  induction tmpl generalizing s with
  | nil => rfl
  | cons t rest ih =>
    by_cases he : Storage.nodePathExists s memoryId t.path
    · simpa [MemoryService.applyLoop, he] using ih s h
    · have hne : p ≠ t.path := by
        intro hp
        rw [hp] at h
        rw [h] at he
        exact he rfl
      have hkey : (memoryId, p) ≠ (memoryId, t.toNode.path) := by
        intro hk
        exact hne (congrArg Prod.snd hk)
      simp only [MemoryService.applyLoop, he, Bool.false_eq_true, ite_false]
      rw [ih _ (by
        rw [nodePathExists_saveNode_ne now s memoryId t.toNode memoryId p hkey]
        exact h)]
      exact getNode_saveNode_ne now s memoryId t.toNode memoryId p hkey

theorem applyLoop_exists_after (now memoryId : String)
    (tmpl : List MemoryTemplateNode) (s : Storage) (t : MemoryTemplateNode)
    (ht : t ∈ tmpl) :
    Storage.nodePathExists (MemoryService.applyLoop now memoryId s tmpl).1
      memoryId t.path = true := by
  induction tmpl generalizing s with
  | nil => cases ht
  | cons hd rest ih =>
    by_cases he : Storage.nodePathExists s memoryId hd.path
    · simp only [MemoryService.applyLoop, he, ite_true]
      cases List.mem_cons.mp ht with
      | inl h1 =>
        subst h1
        exact applyLoop_exists_mono now memoryId rest s t.path he
      | inr h2 => exact ih s h2
    · simp only [MemoryService.applyLoop, he, Bool.false_eq_true, ite_false]
      cases List.mem_cons.mp ht with
      | inl h1 =>
        subst h1
        apply applyLoop_exists_mono
        exact nodePathExists_saveNode_self now s memoryId t.toNode
      | inr h2 => exact ih _ h2

theorem applyLoop_created_absent (now memoryId : String)
    (tmpl : List MemoryTemplateNode) (s : Storage) (c : CreatedNode)
    (hc : c ∈ (MemoryService.applyLoop now memoryId s tmpl).2) :
    Storage.nodePathExists s memoryId c.path = false := by
  induction tmpl generalizing s with
  | nil => cases hc
  | cons hd rest ih =>
    by_cases he : Storage.nodePathExists s memoryId hd.path
    · simp only [MemoryService.applyLoop, he, ite_true] at hc
      exact ih s hc
    · simp only [MemoryService.applyLoop, he, Bool.false_eq_true, ite_false] at hc
      cases List.mem_cons.mp hc with
      | inl h1 =>
        subst h1
        simpa using Bool.eq_false_iff.mpr he
      | inr h2 =>
        have habs := ih _ h2
        by_cases h0 : Storage.nodePathExists s memoryId c.path
        · rw [nodePathExists_saveNode_mono now s memoryId hd.toNode memoryId
            c.path h0] at habs
          cases habs
        · exact Bool.eq_false_iff.mpr h0

theorem applyLoop_absent_created (now memoryId : String)
    (tmpl : List MemoryTemplateNode) (s : Storage) (t : MemoryTemplateNode)
    (ht : t ∈ tmpl) (ha : Storage.nodePathExists s memoryId t.path = false) :
    t.path ∈ ((MemoryService.applyLoop now memoryId s tmpl).2).map
      (fun c => c.path) := by
  induction tmpl generalizing s with
  | nil => cases ht
  | cons hd rest ih =>
    by_cases he : Storage.nodePathExists s memoryId hd.path
    · simp only [MemoryService.applyLoop, he, ite_true]
      cases List.mem_cons.mp ht with
      | inl h1 =>
        subst h1
        rw [he] at ha
        cases ha
      | inr h2 => exact ih s h2 ha
    · simp only [MemoryService.applyLoop, he, Bool.false_eq_true, ite_false,
        List.map_cons]
      by_cases hp : t.path = hd.path
      · exact hp ▸ List.mem_cons_self _ _
      · apply List.mem_cons_of_mem
        cases List.mem_cons.mp ht with
        | inl h1 =>
          subst h1
          exact absurd rfl hp
        | inr h2 =>
          apply ih _ h2
          rw [nodePathExists_saveNode_ne now s memoryId hd.toNode memoryId t.path
            (fun hk => hp (congrArg Prod.snd hk))]
          exact ha

theorem applyLoop_created_from_template (now memoryId : String)
    (tmpl : List MemoryTemplateNode) (s : Storage) (c : CreatedNode)
    (hc : c ∈ (MemoryService.applyLoop now memoryId s tmpl).2) :
    ∃ t, t ∈ tmpl ∧ c.path = t.path ∧ c.needInit = t.needInit := by
  induction tmpl generalizing s with
  | nil => cases hc
  | cons hd rest ih =>
    by_cases he : Storage.nodePathExists s memoryId hd.path
    · simp only [MemoryService.applyLoop, he, ite_true] at hc
      obtain ⟨t, h1, h2, h3⟩ := ih s hc
      exact ⟨t, List.mem_cons_of_mem hd h1, h2, h3⟩
    · simp only [MemoryService.applyLoop, he, Bool.false_eq_true, ite_false] at hc
      cases List.mem_cons.mp hc with
      | inl h1 =>
        subst h1
        exact ⟨hd, List.mem_cons_self hd rest, rfl, rfl⟩
      | inr h2 =>
        obtain ⟨t, h1', h2', h3'⟩ := ih _ h2
        exact ⟨t, List.mem_cons_of_mem hd h1', h2', h3'⟩

theorem applyLoop_all_exist (now memoryId : String)
    (tmpl : List MemoryTemplateNode) (s : Storage)
    (h : ∀ t ∈ tmpl, Storage.nodePathExists s memoryId t.path = true) :
    MemoryService.applyLoop now memoryId s tmpl = (s, []) := by
  induction tmpl with
  | nil => rfl
  | cons hd rest ih =>
    have hh := h hd (List.mem_cons_self hd rest)
    simp only [MemoryService.applyLoop, hh, ite_true]
    exact ih (fun t htl => h t (List.mem_cons_of_mem hd htl))

theorem getMemory_applyLoop_isSome (now memoryId : String)
    (tmpl : List MemoryTemplateNode) (s : Storage) (id' : String)
    (h : (Storage.getMemory s id').isSome = true) :
    (Storage.getMemory (MemoryService.applyLoop now memoryId s tmpl).1
      id').isSome = true := by
  induction tmpl generalizing s with
  | nil => exact h
  | cons hd rest ih =>
    by_cases he : Storage.nodePathExists s memoryId hd.path
    · simpa [MemoryService.applyLoop, he] using ih s h
    · simp only [MemoryService.applyLoop, he, Bool.false_eq_true, ite_false]
      exact ih _ (getMemory_saveNode_isSome now s memoryId hd.toNode id' h)

/-- The local `batchGetNodes` loop drops exactly the failing items: it is
the `filterMap` of the per-item lookup. -/
theorem batchLoop_eq_filterMap (d : String) (s : Storage)
    (reqs : List BatchItemRequest) :
    MemoryService.batchLoop d s reqs =
      reqs.filterMap (MemoryService.batchItem d s) := by
  induction reqs with
  | nil => rfl
  | cons r rest ih =>
    cases h : MemoryService.batchItem d s r with
    | none => simp [MemoryService.batchLoop, h, List.filterMap_cons, ih]
    | some node => simp [MemoryService.batchLoop, h, List.filterMap_cons, ih]

/-! The claims. -/

/-- C1, counterexample.  The claim states that when a default collection id
is configured and the caller also supplies one, every node operation is
performed against the configured default.  In the local `MemoryService`
(which resolves `params.memoryId || this.defaultMemoryId`) this is false:
with default `D` configured and caller-supplied id `E`, `getNode` returns
the node stored only under `E` — had the call operated against `D`, it
would have failed NotFound, since `p` is absent there (second conjunct). -/
theorem claim_C1_counterexample :
    MemoryService.getNode ("D") sC1
      { memoryId := some ("E"), path := "p", outputFormat := none } =
      Except.ok (nodeFix ("p")) ∧
    Storage.getNode sC1 ("D") ("p") = none := by
  exact ⟨rfl, rfl⟩

/-- C1, amended: in the RPC-forwarding `MemoryService` the configured
default does take precedence for every node operation (the request sent
carries the default id whenever one is set), but in the local
`MemoryService` the caller-supplied id wins and the default is only the
fallback for an absent or empty caller id. -/
theorem claim_C1_amended (d c : String) (hd : d ≠ "") (hc : c ≠ "")
    (p1 : GetInitNodesRequestR) (p2 : AddNodeRequestR) (p3 : GetNodeRequestR)
    (p4 : ListNodesRequestR) (p5 : UpdateNodeRequestR) (p6 : DeleteNodeRequestR)
    (p7 : ApplyTemplateRequestR) :
    RemoteMemoryService.getInitNodes d p1 = Except.ok { p1 with memoryId := d } ∧
    RemoteMemoryService.addNode d p2 = Except.ok { p2 with memoryId := d } ∧
    RemoteMemoryService.getNode d p3 = Except.ok { p3 with memoryId := d } ∧
    RemoteMemoryService.listNodes d p4 = Except.ok { p4 with memoryId := d } ∧
    RemoteMemoryService.updateNode d p5 = Except.ok { p5 with memoryId := d } ∧
    RemoteMemoryService.deleteNode d p6 = Except.ok { p6 with memoryId := d } ∧
    RemoteMemoryService.applyTemplate d p7 = Except.ok { p7 with memoryId := d } ∧
    MemoryService.resolveMemoryId d (some c) = Except.ok c := by
  refine ⟨?_, ?_, ?_, ?_, ?_, ?_, ?_, ?_⟩ <;>
    simp [RemoteMemoryService.getInitNodes, RemoteMemoryService.addNode,
      RemoteMemoryService.getNode, RemoteMemoryService.listNodes,
      RemoteMemoryService.updateNode, RemoteMemoryService.deleteNode,
      RemoteMemoryService.applyTemplate, MemoryService.resolveMemoryId,
      jsOrStr, hd, hc]

/-- C1, witness for the amended theorem at default `D`, caller id `E`. -/
theorem claim_C1_witness :
    RemoteMemoryService.getNode ("D") rGet =
      Except.ok { rGet with memoryId := "D" } ∧
    MemoryService.resolveMemoryId ("D") (some ("E")) = Except.ok ("E") := by
  have h := claim_C1_amended ("D") ("E") (by decide) (by decide)
    rInit rAdd rGet rList rUpd rDel rTpl
  exact ⟨h.2.2.1, h.2.2.2.2.2.2.2⟩

/-- C6, counterexample.  The claim states that `batchGetNodes` never aborts
the whole batch because of an individual item's failure (an unresolvable
collection id being one of the listed failures).  The RPC-forwarding
`batchGetNodes` does abort: with no default configured, one request with an
empty id makes the whole call fail, dropping the other (resolvable) item
too. -/
theorem claim_C6_counterexample :
    RemoteMemoryService.batchGetNodes ("")
      [ { memoryId := "M", path := "p" }, { memoryId := "", path := "q" } ] =
      Except.error (MError.configuration
        "One or more requests have no memoryId and no default memoryId is set") := by
  rfl

/-- C6, amended: the local `batchGetNodes` processes its requests
sequentially and drops each failing item (returning the `filterMap` of the
per-item lookup, so no individual failure aborts it), whereas the
RPC-forwarding `batchGetNodes` sends the whole list as one call and fails
the entire batch whenever any rewritten request is left without a
collection id. -/
theorem claim_C6_amended (d : String) (s : Storage) (params : BatchGetRequest) :
    MemoryService.batchGetNodes d s params =
      params.requests.filterMap (MemoryService.batchItem d s) ∧
    ∀ (d' : String) (reqs : List BatchItemRequestR),
      (reqs.map (fun req => { req with memoryId := jsOrStr d' req.memoryId })).any
        (fun req => req.memoryId = "") = true →
      RemoteMemoryService.batchGetNodes d' reqs =
        Except.error (MError.configuration
          "One or more requests have no memoryId and no default memoryId is set") := by
  constructor
  · exact batchLoop_eq_filterMap d s params.requests
  · intro d' reqs h
    simp only [RemoteMemoryService.batchGetNodes, h, ite_true]

/-- C6, witness: the local batch with one hit, one missing node and one
unresolvable id returns just the hit; the remote batch with one
unresolvable item fails whole. -/
theorem claim_C6_witness :
    MemoryService.batchGetNodes ("") sNode pC6 = [nodeFix ("p")] ∧
    RemoteMemoryService.batchGetNodes ("") [ { memoryId := "", path := "q" } ] =
      Except.error (MError.configuration
        "One or more requests have no memoryId and no default memoryId is set") := by
  have h := claim_C6_amended ("") sNode pC6
  exact ⟨h.1.trans (by rfl), h.2 ("") [ { memoryId := "", path := "q" } ] (by rfl)⟩

/-- C7, counterexample.  The claim states the Node Store `remove` returns
`false` when the key was already absent.  The local `deleteNode` returns
`true` unconditionally (node-persist's `removeItem` resolves without error
on a missing key): here the key is absent yet the call reports `true`. -/
theorem claim_C7_counterexample :
    Storage.getNode emptyStorage ("m") ("p") = none ∧
    (Storage.deleteNode emptyStorage ("m") ("p")).2 = true := by
  exact ⟨rfl, rfl⟩

/-- C7, amended: `remove` is idempotent and never errors on a missing key,
and afterwards the key is gone; but it reports `true` even when the key was
already absent (a second remove of the same path returns `true` again and
leaves the state unchanged), `false` arising only from an underlying
storage exception. -/
theorem claim_C7_amended (s : Storage) (memoryId nodePath : String) :
    (Storage.deleteNode s memoryId nodePath).2 = true ∧
    Storage.getNode (Storage.deleteNode s memoryId nodePath).1 memoryId
      nodePath = none ∧
    Storage.deleteNode (Storage.deleteNode s memoryId nodePath).1 memoryId
      nodePath = ((Storage.deleteNode s memoryId nodePath).1, true) := by
  refine ⟨rfl, getNode_deleteNode_self s memoryId nodePath, ?_⟩
  simp [Storage.deleteNode, assocErase_assocErase_self]

/-- C2: if any template entry is marked `needInit` with absent or blank
(after trimming) content, the whole `applyTemplate` call fails with a
Validation error naming such an entry — the check runs before the creation
loop, so the error result carries no new storage state and zero nodes are
created, valid sibling entries included. -/
theorem claim_C2 (now d : String) (s : Storage) (params : ApplyTemplateRequest)
    (memoryId : String) (m : Memory)
    (hres : MemoryService.resolveMemoryId d params.memoryId = Except.ok memoryId)
    (hmem : Storage.getMemory s memoryId = some m)
    (t : MemoryTemplateNode) (ht : t ∈ params.template)
    (hbad : MemoryService.badTemplateNode t = true) :
    ∃ p, MemoryService.applyTemplate now d s params =
      Except.error (MError.validation ("Invalid template: node " ++ p ++
        " is marked as needInit but has no content")) := by
  have hsome : (params.template.find? MemoryService.badTemplateNode).isSome :=
    List.find?_isSome.mpr ⟨t, ht, hbad⟩
  obtain ⟨y, hy⟩ := Option.isSome_iff_exists.mp hsome
  refine ⟨y.path, ?_⟩
  simp only [MemoryService.applyTemplate, hres, MemoryService.checkMemory,
    hmem, hy]

/-- C2, witness: the spec's own example template
`[{path x, needInit true, content ""}, {path y, needInit false}]`. -/
theorem claim_C2_witness :
    ∃ p, MemoryService.applyTemplate ("t1") ("") sOne
      { memoryId := some ("m"), template := [tplXbad, tplY] } =
      Except.error (MError.validation ("Invalid template: node " ++ p ++
        " is marked as needInit but has no content")) :=
  claim_C2 ("t1") ("") sOne
    { memoryId := some ("m"), template := [tplXbad, tplY] }
    ("m") (memFix ("m")) (by rfl) (by rfl) tplXbad
    (List.mem_cons_self tplXbad [tplY]) (by rfl)

/-- C4: deleting a node that has children with `recursive` false (or
absent) fails with a Conflict error; the error is raised before any
removal, so the error result carries no new storage state and both the
node and its children remain stored. -/
theorem claim_C4 (d : String) (s : Storage) (params : DeleteNodeRequest)
    (memoryId : String) (m : Memory) (node : MemoryNode)
    (hres : MemoryService.resolveMemoryId d params.memoryId = Except.ok memoryId)
    (hmem : Storage.getMemory s memoryId = some m)
    (hnode : Storage.getNode s memoryId params.path = some node)
    (hrec : params.recursive = none ∨ params.recursive = some false)
    (hchild : Storage.getChildNodePaths s memoryId params.path ≠ []) :
    MemoryService.deleteNode d s params =
      Except.error (MError.conflict ("Cannot delete node " ++ params.path ++
        " with children without recursive flag")) := by
  have hrec' : params.recursive.getD false = false := by
    cases hrec with
    | inl h => rw [h]; rfl
    | inr h => rw [h]; rfl
  have hlen : (Storage.getChildNodePaths s memoryId params.path).length > 0 :=
    List.length_pos.mpr hchild
  simp only [MemoryService.deleteNode, hres, MemoryService.checkMemory, hmem,
    hnode, hrec', Bool.false_eq_true, ite_false, if_pos hlen]

/-- C4, witness: nodes at `a` and `a/b`; non-recursive delete of `a` fails. -/
theorem claim_C4_witness :
    MemoryService.deleteNode ("") sTree
      { memoryId := some ("m"), path := "a", recursive := none } =
      Except.error (MError.conflict
        "Cannot delete node a with children without recursive flag") :=
  claim_C4 ("") sTree { memoryId := some ("m"), path := "a", recursive := none }
    ("m") (memFix ("m")) (nodeFix ("a")) (by rfl) (by rfl) (by rfl)
    (Or.inl rfl) (by decide)

/-- C8: adding a node at a path that already exists fails with a Conflict
error; the check precedes the save, so the error result carries no new
storage state and the pre-existing node is untouched. -/
theorem claim_C8 (now d : String) (s : Storage) (params : AddNodeRequest)
    (memoryId : String) (m : Memory)
    (hres : MemoryService.resolveMemoryId d params.memoryId = Except.ok memoryId)
    (hmem : Storage.getMemory s memoryId = some m)
    (hex : Storage.nodePathExists s memoryId params.node.path = true) :
    MemoryService.addNode now d s params =
      Except.error (MError.conflict ("Node path " ++ params.node.path ++
        " already exists in memory " ++ memoryId)) := by
  simp only [MemoryService.addNode, hres, MemoryService.checkMemory, hmem,
    hex, ite_true]

/-- C8, witness: re-adding path `p` to the collection that already holds it. -/
theorem claim_C8_witness :
    MemoryService.addNode ("t1") ("") sNode
      { memoryId := some ("m"), node := nodeInputFix } =
      Except.error (MError.conflict
        "Node path p already exists in memory m") :=
  claim_C8 ("t1") ("") sNode { memoryId := some ("m"), node := nodeInputFix }
    ("m") (memFix ("m")) (by rfl) (by rfl) (by rfl)

/-- C3: recursive delete of an existing node removes it together with every
node whose path starts with the node's path plus a slash, reports
`deletedCount` equal to the number of removals (one per target path, the
node itself plus each child path, every removal succeeding) with
`success = deletedCount > 0 = true`, and afterwards neither the node nor
any child path is retrievable. -/
theorem claim_C3 (d : String) (s : Storage) (params : DeleteNodeRequest)
    (memoryId : String) (m : Memory) (node : MemoryNode)
    (hres : MemoryService.resolveMemoryId d params.memoryId = Except.ok memoryId)
    (hmem : Storage.getMemory s memoryId = some m)
    (hnode : Storage.getNode s memoryId params.path = some node)
    (hrec : params.recursive = some true) :
    ∃ s', MemoryService.deleteNode d s params =
      Except.ok (s',
        { success := true,
          deletedCount :=
            (Storage.getChildNodePaths s memoryId params.path).length + 1 }) ∧
      Storage.getNode s' memoryId params.path = none ∧
      ∀ q ∈ Storage.getChildNodePaths s memoryId params.path,
        Storage.getNode s' memoryId q = none := by
  have hrec' : params.recursive.getD false = true := by rw [hrec]; rfl
  refine ⟨(MemoryService.deleteLoop memoryId s
    (params.path :: Storage.getChildNodePaths s memoryId params.path)).1,
    ?_, ?_, ?_⟩
  · simp only [MemoryService.deleteNode, hres, MemoryService.checkMemory,
      hmem, hnode, hrec', ite_true]
    rw [deleteLoop_count]
    simp
  · exact deleteLoop_getNode_none memoryId _ s params.path
      (Or.inl (List.mem_cons_self _ _))
  · intro q hq
    exact deleteLoop_getNode_none memoryId _ s q
      (Or.inl (List.mem_cons_of_mem _ hq))

/-- C3, witness: nodes at `a` and `a/b`; recursive delete of `a` reports
`deletedCount = 2` and both gets miss afterwards. -/
theorem claim_C3_witness : ∃ s',
    MemoryService.deleteNode ("") sTree
      { memoryId := some ("m"), path := "a", recursive := some true } =
      Except.ok (s', { success := true, deletedCount := 2 }) ∧
    Storage.getNode s' ("m") ("a") = none ∧
    ∀ q ∈ Storage.getChildNodePaths sTree ("m") ("a"),
      Storage.getNode s' ("m") q = none :=
  claim_C3 ("") sTree
    { memoryId := some ("m"), path := "a", recursive := some true }
    ("m") (memFix ("m")) (nodeFix ("a")) (by rfl) (by rfl) (by rfl) rfl

/-- C10: for a node whose `createdAt` was stamped at creation (a non-empty
timestamp), `updateNode` re-saves it without touching `createdAt` while
refreshing `updatedAt` to the mutation time (also echoed in the response);
and in general the node-save path stamps `createdAt` only when it is
absent, never rewriting a non-empty one, while always refreshing
`updatedAt`. -/
theorem claim_C10 (now d : String) (s : Storage) (params : UpdateNodeRequest)
    (memoryId ts : String) (m : Memory) (existing : MemoryNode)
    (hres : MemoryService.resolveMemoryId d params.memoryId = Except.ok memoryId)
    (hmem : Storage.getMemory s memoryId = some m)
    (hnode : Storage.getNode s memoryId params.path = some existing)
    (hca : existing.createdAt = some ts) (hts : ts ≠ "") :
    (∃ s' saved,
      MemoryService.updateNode now d s params =
        Except.ok (s', { path := params.path, updatedAt := now }) ∧
      Storage.getNode s' memoryId params.path = some saved ∧
      saved.createdAt = some ts ∧ saved.updatedAt = some now) ∧
    (∀ (s0 : Storage) (id0 now0 : String) (node : MemoryNode),
      node.createdAt = none →
      (Storage.saveNode now0 s0 id0 node).2.createdAt = some now0 ∧
      (Storage.saveNode now0 s0 id0 node).2.updatedAt = some now0) ∧
    (∀ (s0 : Storage) (id0 now0 t0 : String) (node : MemoryNode),
      node.createdAt = some t0 → t0 ≠ "" →
      (Storage.saveNode now0 s0 id0 node).2.createdAt = some t0 ∧
      (Storage.saveNode now0 s0 id0 node).2.updatedAt = some now0) := by
  refine ⟨?_, ?_, ?_⟩
  · refine ⟨(Storage.saveNode now s memoryId
      (MemoryService.mergeUpdates existing params.path params.updates)).1,
      (Storage.saveNode now s memoryId
        (MemoryService.mergeUpdates existing params.path params.updates)).2,
      ?_, ?_, ?_, ?_⟩
    · simp only [MemoryService.updateNode, hres, MemoryService.checkMemory,
        hmem, hnode]
      rfl
    · have h := getNode_saveNode_self now s memoryId
        (MemoryService.mergeUpdates existing params.path params.updates)
      simpa [MemoryService.mergeUpdates] using h
    · simp only [Storage.saveNode, MemoryService.mergeUpdates]
      rw [hca]
      simp [hts]
    · rfl
  · intro s0 id0 now0 node hna
    constructor
    · simp only [Storage.saveNode]
      rw [hna]
    · rfl
  · intro s0 id0 now0 t0 node ha ht0
    constructor
    · simp only [Storage.saveNode]
      rw [ha]
      simp [ht0]
    · rfl

/-- C10, witness: updating node `p` (created at `t0`) at time `t9` keeps
`createdAt = t0` and sets `updatedAt = t9`. -/
theorem claim_C10_witness :
    (∃ s' saved,
      MemoryService.updateNode ("t9") ("") sNode
        { memoryId := some ("m"), path := "p", updates := noUpdates } =
        Except.ok (s', { path := "p", updatedAt := "t9" }) ∧
      Storage.getNode s' ("m") ("p") = some saved ∧
      saved.createdAt = some "t0" ∧ saved.updatedAt = some "t9") ∧
    (∀ (s0 : Storage) (id0 now0 : String) (node : MemoryNode),
      node.createdAt = none →
      (Storage.saveNode now0 s0 id0 node).2.createdAt = some now0 ∧
      (Storage.saveNode now0 s0 id0 node).2.updatedAt = some now0) ∧
    (∀ (s0 : Storage) (id0 now0 t0 : String) (node : MemoryNode),
      node.createdAt = some t0 → t0 ≠ "" →
      (Storage.saveNode now0 s0 id0 node).2.createdAt = some t0 ∧
      (Storage.saveNode now0 s0 id0 node).2.updatedAt = some now0) :=
  claim_C10 ("t9") ("") sNode
    { memoryId := some ("m"), path := "p", updates := noUpdates }
    ("m") ("t0") (memFix ("m")) (nodeFix ("p"))
    (by rfl) (by rfl) (by rfl) (by rfl) (by decide)

/-- The path guard of the filter coincides with the spec's clause
(`pathPrefix` absent, or the node's path starts with it; the code also
skips the check for an empty string, which `startsWith` accepts anyway). -/
theorem matchPath_iff (pf : Option String) (node : MemoryNode) :
    (match pf with
     | none => true
     | some p => if p = "" then true else jsStartsWith node.path p) = true ↔
    ∀ p, pf = some p → jsStartsWith node.path p = true := by
  cases pf with
  | none => simp
  | some p0 =>
    by_cases hp : p0 = ""
    · subst hp
      simp [jsStartsWith_empty]
    · simp [hp]

/-- The type guard of the filter coincides with the spec's exact-match
clause. -/
theorem matchType_iff (tf : Option ContentType) (node : MemoryNode) :
    (match tf with
     | none => true
     | some t => decide (node.type = t)) = true ↔
    ∀ t, tf = some t → node.type = t := by
  cases tf <;> simp

/-- The needInit guard of the filter coincides with the spec's exact-match
clause (an absent `needInit` on the node matches no requested value). -/
theorem matchInit_iff (nf : Option Bool) (node : MemoryNode) :
    (match nf with
     | none => true
     | some b => decide (node.needInit = some b)) = true ↔
    ∀ b, nf = some b → node.needInit = some b := by
  cases nf <;> simp

/-- The filter predicate, componentwise. -/
theorem nodeMatches_iff (pf : Option String) (tf : Option ContentType)
    (nf : Option Bool) (node : MemoryNode) :
    Storage.nodeMatches pf tf nf node = true ↔
      ((∀ p, pf = some p → jsStartsWith node.path p = true) ∧
       (∀ t, tf = some t → node.type = t) ∧
       (∀ b, nf = some b → node.needInit = some b)) := by
  unfold Storage.nodeMatches
  simp only [Bool.and_eq_true]
  rw [matchPath_iff, matchType_iff, matchInit_iff]
  exact and_assoc

/-- C5, counterexample.  The claim states that `items` is the slice
`[offset, offset+limit)` of the matching set, so a supplied `limit` of `0`
ought to return no items.  The code resolves the limit as `limit || 50`, so
`0` falls back to `50` and the (single-node) matching set is returned
whole. -/
theorem claim_C5_counterexample :
    MemoryService.listNodes ("") sNode pC5 = Except.ok
      { total := 1,
        nodes := [ { path := "p", name := "n", description := "" } ] } ∧
    MemoryService.listNodes ("") sNode pC5 ≠ Except.ok
      { total := 1, nodes := [] } := by
  refine ⟨rfl, ?_⟩
  intro h
  have h1 : MemoryService.listNodes ("") sNode pC5 = Except.ok
      { total := 1,
        nodes := [ { path := "p", name := "n", description := "" } ] } := rfl
  have h2 := Except.ok.inj (h1.symm.trans h)
  simp only [ListNodesResponse.mk.injEq] at h2
  exact List.cons_ne_nil _ _ h2.2

/-- C5, amended: `listNodes` computes the full matching set first — a node
matches iff the path-prefix, type and needInit clauses all hold exactly as
the claim states them — returns `total` as that set's size independent of
pagination, and returns as items the slice `[offset', offset'+limit')`
where `offset'` is the supplied offset (default `0`) and `limit'` is the
supplied limit except that an absent *or zero* limit becomes `50` (the JS
`||` default treats `0` as absent). -/
theorem claim_C5_amended (d : String) (s : Storage) (params : ListNodesRequest)
    (memoryId : String) (m : Memory)
    (hres : MemoryService.resolveMemoryId d params.memoryId = Except.ok memoryId)
    (hmem : Storage.getMemory s memoryId = some m) :
    (MemoryService.listNodes d s params = Except.ok
      { total := (Storage.getFilteredNodes s memoryId
          (params.filter.bind (fun f => f.path))
          (params.filter.bind (fun f => f.type))
          (params.filter.bind (fun f => f.needInit))).length,
        nodes := (((Storage.getFilteredNodes s memoryId
            (params.filter.bind (fun f => f.path))
            (params.filter.bind (fun f => f.type))
            (params.filter.bind (fun f => f.needInit))).drop
              (jsOrNat (params.pagination.bind (fun p => p.offset)) 0)).take
              (jsOrNat (params.pagination.bind (fun p => p.limit)) 50)).map
            (fun node => { path := node.path, name := node.name,
                           description := node.description.getD "" }) }) ∧
    ∀ (s2 : Storage) (id2 : String) (pf : Option String)
      (tf : Option ContentType) (nf : Option Bool) (node : MemoryNode),
      node ∈ Storage.getFilteredNodes s2 id2 pf tf nf ↔
        (node ∈ Storage.getAllNodes s2 id2 ∧
         (∀ p, pf = some p → jsStartsWith node.path p = true) ∧
         (∀ t, tf = some t → node.type = t) ∧
         (∀ b, nf = some b → node.needInit = some b)) := by
  constructor
  · simp only [MemoryService.listNodes, hres, MemoryService.checkMemory, hmem]
  · intro s2 id2 pf tf nf node
    rw [Storage.getFilteredNodes, List.mem_filter, nodeMatches_iff]

/-- C5, witness: one matching node, offset `1`, limit `1` — the slice is
empty while `total` remains `1`; and the filter clauses at a concrete
node. -/
theorem claim_C5_witness :
    (MemoryService.listNodes ("") sNode
      { memoryId := some ("m"), filter := none,
        pagination := some { offset := some 1, limit := some 1 } } = Except.ok
      { total := 1, nodes := [] }) ∧
    (nodeFix ("p") ∈ Storage.getFilteredNodes sNode ("m") none none none ↔
      (nodeFix ("p") ∈ Storage.getAllNodes sNode ("m") ∧
       (∀ p, (none : Option String) = some p →
         jsStartsWith (nodeFix ("p")).path p = true) ∧
       (∀ t, (none : Option ContentType) = some t → (nodeFix ("p")).type = t) ∧
       (∀ b, (none : Option Bool) = some b →
         (nodeFix ("p")).needInit = some b))) := by
  have h := claim_C5_amended ("") sNode
    { memoryId := some ("m"), filter := none,
      pagination := some { offset := some 1, limit := some 1 } }
    ("m") (memFix ("m")) (by rfl) (by rfl)
  exact ⟨h.1.trans (by rfl), h.2 sNode ("m") none none none (nodeFix ("p"))⟩

/-- C9: once validation passes, `applyTemplate` iterates the entries in
order, silently skips every entry whose path already exists (leaving the
stored node untouched), creates the rest, and returns `success = true`
unconditionally with `createdNodes` listing exactly the `{path, needInit}`
of the entries actually created (each created path was absent beforehand,
every originally-absent template path gets created, and every created entry
comes from a template entry); afterwards every template path exists, so
re-applying the same template changes nothing and returns an empty
`createdNodes`. -/
theorem claim_C9 (now now2 d : String) (s : Storage)
    (params : ApplyTemplateRequest) (memoryId : String) (m : Memory)
    (hres : MemoryService.resolveMemoryId d params.memoryId = Except.ok memoryId)
    (hmem : Storage.getMemory s memoryId = some m)
    (hvalid : ∀ t ∈ params.template, MemoryService.badTemplateNode t = false) :
    ∃ s' created,
      MemoryService.applyTemplate now d s params =
        Except.ok (s',
          { memoryId := memoryId, success := true, createdNodes := created }) ∧
      (∀ p, Storage.nodePathExists s memoryId p = true →
        Storage.getNode s' memoryId p = Storage.getNode s memoryId p) ∧
      (∀ t ∈ params.template,
        Storage.nodePathExists s' memoryId t.path = true) ∧
      (∀ c ∈ created, Storage.nodePathExists s memoryId c.path = false) ∧
      (∀ t ∈ params.template,
        Storage.nodePathExists s memoryId t.path = false →
        t.path ∈ created.map (fun c => c.path)) ∧
      (∀ c ∈ created, ∃ t, t ∈ params.template ∧ c.path = t.path ∧
        c.needInit = t.needInit) ∧
      MemoryService.applyTemplate now2 d s' params =
        Except.ok (s',
          { memoryId := memoryId, success := true, createdNodes := [] }) := by
  have hfind : params.template.find? MemoryService.badTemplateNode = none :=
    List.find?_eq_none.mpr (fun x hx => by simp [hvalid x hx])
  refine ⟨(MemoryService.applyLoop now memoryId s params.template).1,
          (MemoryService.applyLoop now memoryId s params.template).2,
          ?_, ?_, ?_, ?_, ?_, ?_, ?_⟩
  · simp only [MemoryService.applyTemplate, hres, MemoryService.checkMemory,
      hmem, hfind]
  · intro p hp
    exact applyLoop_getNode_preserved now memoryId params.template s p hp
  · intro t ht
    exact applyLoop_exists_after now memoryId params.template s t ht
  · intro c hc
    exact applyLoop_created_absent now memoryId params.template s c hc
  · intro t ht ha
    exact applyLoop_absent_created now memoryId params.template s t ht ha
  · intro c hc
    exact applyLoop_created_from_template now memoryId params.template s c hc
  · have hm0 : (Storage.getMemory s memoryId).isSome = true := by
      rw [hmem]; rfl
    obtain ⟨m', hm'⟩ := Option.isSome_iff_exists.mp
      (getMemory_applyLoop_isSome now memoryId params.template s memoryId hm0)
    have hloop2 : MemoryService.applyLoop now2 memoryId
        (MemoryService.applyLoop now memoryId s params.template).1
        params.template =
        ((MemoryService.applyLoop now memoryId s params.template).1, []) :=
      applyLoop_all_exist now2 memoryId params.template _
        (fun t ht => applyLoop_exists_after now memoryId params.template s t ht)
    simp only [MemoryService.applyTemplate, hres, MemoryService.checkMemory,
      hm', hfind, hloop2]

/-- C9, witness: the valid template `[y, z]` applied to an empty collection
at `t1`, then re-applied at `t2`. -/
theorem claim_C9_witness : ∃ s' created,
    MemoryService.applyTemplate ("t1") ("") sOne
      { memoryId := some ("m"), template := [tplY, tplZ] } =
      Except.ok (s',
        { memoryId := "m", success := true, createdNodes := created }) ∧
    (∀ p, Storage.nodePathExists sOne ("m") p = true →
      Storage.getNode s' ("m") p = Storage.getNode sOne ("m") p) ∧
    (∀ t ∈ [tplY, tplZ],
      Storage.nodePathExists s' ("m") t.path = true) ∧
    (∀ c ∈ created, Storage.nodePathExists sOne ("m") c.path = false) ∧
    (∀ t ∈ [tplY, tplZ],
      Storage.nodePathExists sOne ("m") t.path = false →
      t.path ∈ created.map (fun c => c.path)) ∧
    (∀ c ∈ created, ∃ t, t ∈ [tplY, tplZ] ∧ c.path = t.path ∧
      c.needInit = t.needInit) ∧
    MemoryService.applyTemplate ("t2") ("") s'
      { memoryId := some ("m"), template := [tplY, tplZ] } =
      Except.ok (s',
        { memoryId := "m", success := true, createdNodes := [] }) :=
  claim_C9 ("t1") ("t2") ("") sOne
    { memoryId := some ("m"), template := [tplY, tplZ] }
    ("m") (memFix ("m")) (by rfl) (by rfl) (by decide)

end MmpMcp
